import Mathlib

/-
Verification of the "Project Omega" tunnel supervisor and agent-mode
command interpreter/executor against its natural-language specification.

The relevant Python code lives in three incremental versions:
  app_enhanced_v3.py    (namespace V3)
  app_enhanced_v3_1.py  (namespace V31)
  app_enhanced_v3_2.py  (namespace V32)
Shared pure string machinery (Python str helpers, a small matcher for the
regular expressions actually occurring in the source) is in namespace Omega.

Strings are modelled as `List Char` for matching purposes; Python's
`str.lower`/`str.strip` are modelled for the ASCII range, which covers all
patterns and all inputs used in the theorems.  Subprocess execution and
other I/O is modelled by explicit oracles (`RunOutcome`, environment
records), and handlers additionally return traces of the commands they
executed and of the commands they passed to the safety filter, so that
"no command is executed without passing the filter" is a statement about
the embedding.
-/

namespace Omega

/-! ## Python string helpers -/

/-- Whitespace characters recognised by Python's `str.strip()` (ASCII range). -/
def isPySpace (c : Char) : Bool :=
  c = ' ' || c = '\t' || c = '\n' || c = '\r' || c = '\x0b' || c = '\x0c'

/-- Python `str.strip()`: drop whitespace from both ends. -/
def pyStrip (s : List Char) : List Char :=
  ((s.dropWhile isPySpace).reverse.dropWhile isPySpace).reverse

/-- Python `str.lower()` (ASCII range). -/
def pyLower (s : List Char) : List Char :=
  s.map Char.toLower

/-- The `user_message.lower().strip()` normalisation used by the interpreters. -/
def pyNorm (s : List Char) : List Char :=
  pyStrip (pyLower s)

/-- Fueled worker for Python `str.replace`: replace every non-overlapping
occurrence of `pat` (assumed nonempty) left to right. -/
def replaceAllF : Nat → List Char → List Char → List Char → List Char
  | 0, s, _, _ => s
  | _ + 1, [], _, _ => []
  | f + 1, x :: s, pat, rep =>
    if pat.isPrefixOf (x :: s) && !pat.isEmpty then
      rep ++ replaceAllF f (List.drop (pat.length - 1) s) pat rep
    else
      x :: replaceAllF f s pat rep

/-- Python `str.replace(pat, rep)` for nonempty `pat`. -/
def replaceAll (s pat rep : List Char) : List Char :=
  replaceAllF (s.length + 1) s pat rep

/-- Everything after the first `' '` of a Python string, as used by
`user_message.split(' ', 1)[1] if ' ' in user_message else ''`. -/
def afterFirstSpace : List Char → Option (List Char)
  | [] => none
  | c :: t => if c = ' ' then some t else afterFirstSpace t

/-- Fueled substring test (Python's `needle in haystack`). -/
def containsSubF : Nat → List Char → List Char → Bool
  | 0, _, _ => false
  | _ + 1, needle, [] => needle.isEmpty
  | f + 1, needle, x :: t => needle.isPrefixOf (x :: t) || containsSubF f needle t

/-- Python's `needle in haystack` on strings. -/
def containsSub (needle hay : List Char) : Bool :=
  containsSubF (hay.length + 1) needle hay

/-- Python `str.startswith` on one candidate. -/
def startsWith (marker s : List Char) : Bool :=
  marker.isPrefixOf s

/-! ## A matcher for the command-interpretation patterns

Every regular expression in `COMMAND_PATTERNS` is built from literal
characters, `.*` and a trailing capture group `(.+)`, so the pattern
language below embeds them exactly.  `grpCont` is an internal token used
while the capture group is being extended; source patterns never contain it.
The matcher follows Python `re.search` semantics: leftmost starting
position, and at that position greedy (longest-first) resolution of `.*`
and `(.+)`, with `.` not matching a newline. -/

inductive Tok where
  | lit (c : Char)
  | ds
  | grp
  | grpCont
deriving DecidableEq

/-- Literal tokens of a string. -/
def lits (s : String) : List Tok :=
  s.data.map Tok.lit

/-- Fueled matcher at a fixed position.  Returns `none` on failure,
`some none` when the pattern matches without containing a capture group,
and `some (some g)` when it matches capturing `g`.  Greedy alternatives
are tried first, matching Python's backtracking order. -/
def mCapF : Nat → List Tok → List Char → Option (Option (List Char))
  | 0, _, _ => none
  | _ + 1, [], _ => some none
  | f + 1, Tok.lit c :: p, s =>
    match s with
    | [] => none
    | x :: t => if x = c then mCapF f p t else none
  | f + 1, Tok.ds :: p, s =>
    (match s with
     | [] => none
     | x :: t => if x ≠ '\n' then mCapF f (Tok.ds :: p) t else none)
    <|> mCapF f p s
  | f + 1, Tok.grp :: p, s =>
    match s with
    | [] => none
    | x :: t =>
      if x ≠ '\n' then
        (mCapF f (Tok.grpCont :: p) t).map (fun og => some (x :: og.getD []))
      else none
  | f + 1, Tok.grpCont :: p, s =>
    (match s with
     | [] => none
     | x :: t =>
       if x ≠ '\n' then
         (mCapF f (Tok.grpCont :: p) t).map (fun og => og.map (fun g => x :: g))
       else none)
    <|> ((mCapF f p s).map (fun _ => some []))

/-- Match the pattern at this position with sufficient fuel. -/
def mCap (p : List Tok) (s : List Char) : Option (Option (List Char)) :=
  mCapF (s.length + p.length + 1) p s

/-- Fueled leftmost search (the fuel counts candidate start positions). -/
def searchCapF : Nat → List Tok → List Char → Option (Option (List Char))
  | 0, _, _ => none
  | f + 1, p, s =>
    match mCap p s with
    | some r => some r
    | none =>
      match s with
      | [] => none
      | _ :: t => searchCapF f p t

/-- Python `re.search(p, s)`: leftmost match, with its capture group if any. -/
def reSearchCap (p : List Tok) (s : List Char) : Option (Option (List Char)) :=
  searchCapF (s.length + 1) p s

/-- Whether `re.search(p, s)` succeeds. -/
def reSearch (p : List Tok) (s : List Char) : Bool :=
  (reSearchCap p s).isSome

/-! ## Command rules -/

/-- One entry of a `COMMAND_PATTERNS` list: natural-language patterns, a
command template and a description. -/
structure CommandRule where
  patterns : List (List Tok)
  command : String
  description : String
deriving DecidableEq

end Omega

namespace V31

open Omega

/-- `COMMAND_PATTERNS` of app_enhanced_v3_1.py (lines 80-136), with each
regular expression transcribed into the token pattern language. -/
def COMMAND_PATTERNS : List CommandRule := [
  { patterns := [lits "what" ++ [Tok.ds] ++ lits "python" ++ [Tok.ds] ++ lits "version",
                 lits "python" ++ [Tok.ds] ++ lits "version",
                 lits "check python"],
    command := "python --version",
    description := "Check Python version" },
  { patterns := [lits "list" ++ [Tok.ds] ++ lits "files",
                 lits "show" ++ [Tok.ds] ++ lits "files",
                 lits "what" ++ [Tok.ds] ++ lits "files",
                 lits "ls"],
    command := "ls -la",
    description := "List files in current directory" },
  { patterns := [lits "current" ++ [Tok.ds] ++ lits "directory",
                 lits "where" ++ [Tok.ds] ++ lits "am" ++ [Tok.ds] ++ lits "i",
                 lits "pwd",
                 lits "what" ++ [Tok.ds] ++ lits "directory"],
    command := "pwd",
    description := "Show current directory" },
  { patterns := [lits "disk" ++ [Tok.ds] ++ lits "space",
                 lits "storage" ++ [Tok.ds] ++ lits "space",
                 lits "df",
                 lits "disk" ++ [Tok.ds] ++ lits "usage"],
    command := "df -h",
    description := "Show disk space usage" },
  { patterns := [lits "memory" ++ [Tok.ds] ++ lits "usage",
                 lits "ram" ++ [Tok.ds] ++ lits "usage",
                 lits "free" ++ [Tok.ds] ++ lits "memory"],
    command := "free -h",
    description := "Show memory usage" },
  { patterns := [lits "running" ++ [Tok.ds] ++ lits "processes",
                 lits "process" ++ [Tok.ds] ++ lits "list",
                 lits "ps"],
    command := "ps aux | head -20",
    description := "Show running processes" },
  { patterns := [lits "system" ++ [Tok.ds] ++ lits "info",
                 lits "os" ++ [Tok.ds] ++ lits "info",
                 lits "uname"],
    command := "uname -a",
    description := "Show system information" },
  { patterns := [lits "ip" ++ [Tok.ds] ++ lits "address",
                 lits "network" ++ [Tok.ds] ++ lits "info",
                 lits "ifconfig"],
    command := "ip addr show",
    description := "Show network interfaces" },
  { patterns := [lits "install" ++ [Tok.ds] ++ lits "pip" ++ [Tok.ds, Tok.grp],
                 lits "pip" ++ [Tok.ds] ++ lits "install" ++ [Tok.ds, Tok.grp]],
    command := "pip install {1}",
    description := "Install Python package via pip" },
  { patterns := [lits "create" ++ [Tok.ds] ++ lits "directory" ++ [Tok.ds, Tok.grp],
                 lits "mkdir" ++ [Tok.ds, Tok.grp]],
    command := "mkdir -p {1}",
    description := "Create directory" },
  { patterns := [lits "remove" ++ [Tok.ds] ++ lits "file" ++ [Tok.ds, Tok.grp],
                 lits "delete" ++ [Tok.ds] ++ lits "file" ++ [Tok.ds, Tok.grp],
                 lits "rm" ++ [Tok.ds, Tok.grp]],
    command := "rm -f {1}",
    description := "Remove file" }]

/-- Substitution of the capture group into the command template, as done by
`command.replace(f'{{{i}}}', group.strip())`.  Every pattern in the source
has at most one capture group, so only placeholder `{1}` can occur. -/
def substGroups (cmd : String) : Option (List Char) → String
  | none => cmd
  | some g => String.mk (replaceAll cmd.data ("{1}".data) (pyStrip g))

/-- Try the patterns of one rule in their listed order; on the first match,
substitute any captured group into the rule's command template. -/
def tryPatterns (rule : CommandRule) (msg : List Char) : List (List Tok) → Option String
  | [] => none
  | p :: ps =>
    match reSearchCap p msg with
    | some g => some (substGroups rule.command g)
    | none => tryPatterns rule msg ps

/-- Try one rule. -/
def tryRule (rule : CommandRule) (msg : List Char) : Option String :=
  tryPatterns rule msg rule.patterns

/-- Iterate the rules in list order, first match wins. -/
def findInterp (msg : List Char) : List CommandRule → Option (String × String)
  | [] => none
  | r :: rs =>
    match tryRule r msg with
    | some cmd => some (cmd, r.description)
    | none => findInterp msg rs

/-- The direct-command markers checked by `startswith(('/cmd ', '/terminal ', '$ ', '> '))`. -/
def directMarkers : List String := ["/cmd ", "/terminal ", "$ ", "> "]

/-- Whether the normalised message begins with a direct-command marker. -/
def isDirect (msgLower : List Char) : Bool :=
  directMarkers.any (fun m => startsWith m.data msgLower)

/-- `AgentMode.interpret_command` (app_enhanced_v3_1.py lines 522-546).
Returns `some (command, interpretation)`, or `none` for Python's
`(None, None)`.  The direct-command branch splits the original message at
its first space, the pattern branch works on the lowercased, stripped
message. -/
def interpretCommand (userMessage : String) : Option (String × String) :=
  let msgLower := pyNorm userMessage.data
  if isDirect msgLower then
    let command :=
      match afterFirstSpace userMessage.data with
      | some rest => String.mk rest
      | none => ""
    some (command, "Direct command: " ++ command)
  else
    match findInterp msgLower COMMAND_PATTERNS with
    | some (cmd, desc) =>
      some (cmd, "Interpreted '" ++ userMessage ++ "' as: " ++ desc)
    | none => none

end V31

namespace V32

open Omega

/-- `COMMAND_PATTERNS` of app_enhanced_v3_2.py (lines 82-123): eight rules,
no capture groups, fixed command templates. -/
def COMMAND_PATTERNS : List CommandRule := [
  { patterns := [lits "what" ++ [Tok.ds] ++ lits "python" ++ [Tok.ds] ++ lits "version",
                 lits "python" ++ [Tok.ds] ++ lits "version",
                 lits "check python"],
    command := "python --version",
    description := "Check Python version" },
  { patterns := [lits "list" ++ [Tok.ds] ++ lits "files",
                 lits "show" ++ [Tok.ds] ++ lits "files",
                 lits "what" ++ [Tok.ds] ++ lits "files",
                 lits "ls"],
    command := "ls -la",
    description := "List files in current directory" },
  { patterns := [lits "current" ++ [Tok.ds] ++ lits "directory",
                 lits "where" ++ [Tok.ds] ++ lits "am" ++ [Tok.ds] ++ lits "i",
                 lits "pwd",
                 lits "what" ++ [Tok.ds] ++ lits "directory"],
    command := "pwd",
    description := "Show current directory" },
  { patterns := [lits "disk" ++ [Tok.ds] ++ lits "space",
                 lits "storage" ++ [Tok.ds] ++ lits "space",
                 lits "df",
                 lits "disk" ++ [Tok.ds] ++ lits "usage"],
    command := "df -h",
    description := "Show disk space usage" },
  { patterns := [lits "memory" ++ [Tok.ds] ++ lits "usage",
                 lits "ram" ++ [Tok.ds] ++ lits "usage",
                 lits "free" ++ [Tok.ds] ++ lits "memory",
                 lits "memory" ++ [Tok.ds] ++ lits "info"],
    command := "free -h",
    description := "Show memory usage" },
  { patterns := [lits "system" ++ [Tok.ds] ++ lits "info",
                 lits "system" ++ [Tok.ds] ++ lits "details",
                 lits "uname",
                 lits "os" ++ [Tok.ds] ++ lits "info"],
    command := "uname -a",
    description := "Show system information" },
  { patterns := [lits "processes",
                 lits "running" ++ [Tok.ds] ++ lits "processes",
                 lits "ps",
                 lits "what" ++ [Tok.ds] ++ lits "running"],
    command := "ps aux",
    description := "Show running processes" },
  { patterns := [lits "network" ++ [Tok.ds] ++ lits "info",
                 lits "ip" ++ [Tok.ds] ++ lits "address",
                 lits "ifconfig",
                 lits "network" ++ [Tok.ds] ++ lits "config"],
    command := "ip addr show",
    description := "Show network configuration" }]

/-- First matching rule's command, rules and patterns in listed order. -/
def findCommand (msg : List Char) : List CommandRule → Option String
  | [] => none
  | r :: rs =>
    if r.patterns.any (fun p => reSearch p msg) then some r.command
    else findCommand msg rs

/-- `AgentCommandInterpreter.interpret_command` (app_enhanced_v3_2.py lines
697-709): no direct-command markers, no capture substitution; the first
rule with a matching pattern yields its fixed command. -/
def interpretCommand (userInput : String) : Option String :=
  findCommand (pyNorm userInput.data) COMMAND_PATTERNS

end V32

namespace Omega

/-! ## A matcher for the safety-filter patterns

The `dangerous_patterns` regular expressions use word boundaries `\b`,
`\s+`, `.*` and (escaped) literal characters, so they get their own token
language.  The matcher carries the previous character to decide word
boundaries, as `re` does. -/

inductive STok where
  | lit (c : Char)
  | wb
  | wsPlus
  | anyStar
deriving DecidableEq

/-- Literal tokens of a string (safety-pattern language). -/
def slits (s : String) : List STok :=
  s.data.map STok.lit

/-- Python `\w`: word characters (ASCII range). -/
def isWordChar (c : Char) : Bool :=
  c.isAlphanum || c = '_'

/-- Word-character test for the character left of the position (`none` at
the start of the string). -/
def isWordOpt : Option Char → Bool
  | none => false
  | some c => isWordChar c

/-- Word-character test for the character at the position (end of string
counts as a non-word character). -/
def isWordNext : List Char → Bool
  | [] => false
  | x :: _ => isWordChar x

/-- Fueled safety-pattern matcher at a fixed position; `prev` is the
character immediately before the position. -/
def sMatchF : Nat → Option Char → List STok → List Char → Bool
  | 0, _, _, _ => false
  | _ + 1, _, [], _ => true
  | f + 1, _, STok.lit c :: p, s =>
    match s with
    | [] => false
    | x :: t => x = c && sMatchF f (some x) p t
  | f + 1, prev, STok.wb :: p, s =>
    (isWordOpt prev != isWordNext s) && sMatchF f prev p s
  | f + 1, _, STok.wsPlus :: p, s =>
    match s with
    | [] => false
    | x :: t =>
      isPySpace x && (sMatchF f (some x) p t || sMatchF f (some x) (STok.wsPlus :: p) t)
  | f + 1, prev, STok.anyStar :: p, s =>
    sMatchF f prev p s ||
      (match s with
       | [] => false
       | x :: t => x ≠ '\n' && sMatchF f (some x) (STok.anyStar :: p) t)

/-- Match the safety pattern at this position with sufficient fuel. -/
def sMatch (prev : Option Char) (p : List STok) (s : List Char) : Bool :=
  sMatchF (s.length + p.length + 1) prev p s

/-- Fueled search for a safety pattern anywhere in the string. -/
def sSearchF : Nat → Option Char → List STok → List Char → Bool
  | 0, _, _, _ => false
  | f + 1, prev, p, s =>
    sMatch prev p s ||
      (match s with
       | [] => false
       | x :: t => sSearchF f (some x) p t)

/-- `re.search(p, s)` for a safety pattern (Boolean outcome only). -/
def sSearch (p : List STok) (s : List Char) : Bool :=
  sSearchF (s.length + 1) none p s

/-! ## Subprocess oracle and execution results -/

/-- Outcome of a `subprocess.run(command, shell=True, ..., timeout=30)`
call, supplied as an oracle: normal completion with captured output and
exit status, `subprocess.TimeoutExpired`, or any other exception with its
message. -/
inductive RunOutcome where
  | completed (stdout stderr : String) (returncode : Int)
  | timedOut
  | failed (errMsg : String)
deriving DecidableEq

end Omega

namespace V3

open Omega

/-- `dangerous_patterns` of `AgentMode._is_safe_command` in
app_enhanced_v3.py (lines 519-527).  Note the sixth entry transcribes
`r'\bddof=/dev/'`: the regex as written in v3 has no whitespace between
`dd` and `of=`. -/
def dangerousPatterns : List (List STok) := [
  [STok.wb] ++ slits "rm" ++ [STok.wsPlus] ++ slits "-rf" ++ [STok.wsPlus] ++ slits "/",
  [STok.wb] ++ slits "shutdown" ++ [STok.wb],
  [STok.wb] ++ slits "reboot" ++ [STok.wb],
  [STok.wb] ++ slits "halt" ++ [STok.wb],
  [STok.wb] ++ slits "mkfs" ++ [STok.wb],
  [STok.wb] ++ slits "ddof=/dev/",
  slits ":()\x7b" ++ [STok.anyStar] ++ slits "|&\x7d:"]

/-- `AgentMode._is_safe_command` (app_enhanced_v3.py lines 515-533):
reject when any dangerous pattern is found, case-insensitively. -/
def isSafeCommand (command : String) : Bool :=
  !(dangerousPatterns.any (fun p => sSearch p (pyLower command.data)))

/-- The dictionary returned by `AgentMode.execute_command` in
app_enhanced_v3.py (lines 474-513); only the completed branch carries a
`'return_code'` key. -/
structure ExecResult where
  success : Bool
  output : String
  error : String
  return_code : Option Int
deriving DecidableEq

/-- `AgentMode.execute_command` (app_enhanced_v3.py lines 474-513) with
the same instrumentation as the v3.1 executor. -/
def executeCommand (run : String → RunOutcome) (command : String) :
    ExecResult × List String × List String :=
  if !isSafeCommand command then
    ({ success := false, output := "", error := "Command blocked for security reasons",
       return_code := none }, [], [command])
  else
    match run command with
    | RunOutcome.completed out err code =>
      ({ success := code = 0, output := out, error := err, return_code := some code },
       [command], [command])
    | RunOutcome.timedOut =>
      ({ success := false, output := "", error := "Command timeout (30s limit)",
         return_code := none }, [command], [command])
    | RunOutcome.failed msg =>
      ({ success := false, output := "", error := msg, return_code := none },
       [command], [command])

/-- Everything observable about one `handle_agent_mode` turn of
app_enhanced_v3.py: the emitted response, whether it is a command result,
the prompts sent to `send_to_ollama`, and the executed commands. -/
structure AgentModeOutcome where
  response : String
  isCommandResult : Bool
  ollamaCalls : List String
  executed : List String
deriving DecidableEq

/-- `handle_agent_mode` (app_enhanced_v3.py lines 638-705).  `run` is the
subprocess oracle, `ollama` the inference service (prompt to generated
text), `enhance` the web-search enrichment
`WebSearchManager.enhance_prompt_with_search`.  Unlike the v3.1/v3.2 agent
handlers, the non-command branch delegates to the inference service. -/
def handleAgentMode (run : String → RunOutcome) (ollama : String → String)
    (enhance : String → String) (message : String) : AgentModeOutcome :=
  if startsWith ("/cmd ".data) message.data || startsWith ("/terminal ".data) message.data then
    let command :=
      match afterFirstSpace message.data with
      | some rest => String.mk rest
      | none => ""
    if command = "" then
      { response := "Please provide a command to execute. Example: /cmd ls -la",
        isCommandResult := false, ollamaCalls := [], executed := [] }
    else
      let result := (executeCommand run command).1
      let response :=
        "**Command:** `" ++ command ++ "`\n\n" ++
        (if result.success then
          "**Output:**\n```\n" ++ result.output ++ "\n```" ++
            (if result.error ≠ "" then
              "\n\n**Stderr:**\n```\n" ++ result.error ++ "\n```"
            else "")
        else
          "**Error:**\n```\n" ++ result.error ++ "\n```")
      { response := response, isCommandResult := true,
        ollamaCalls := [], executed := (executeCommand run command).2.1 }
  else
    let enhanced := enhance message
    { response := ollama enhanced, isCommandResult := false,
      ollamaCalls := [enhanced], executed := [] }

end V3

namespace V31

open Omega

/-- `dangerous_patterns` of `AgentMode._is_safe_command` in
app_enhanced_v3_1.py (lines 595-603); the sixth entry is `r'\bdd\s+of=/dev/'`. -/
def dangerousPatterns : List (List STok) := [
  [STok.wb] ++ slits "rm" ++ [STok.wsPlus] ++ slits "-rf" ++ [STok.wsPlus] ++ slits "/",
  [STok.wb] ++ slits "shutdown" ++ [STok.wb],
  [STok.wb] ++ slits "reboot" ++ [STok.wb],
  [STok.wb] ++ slits "halt" ++ [STok.wb],
  [STok.wb] ++ slits "mkfs" ++ [STok.wb],
  [STok.wb] ++ slits "dd" ++ [STok.wsPlus] ++ slits "of=/dev/",
  slits ":()\x7b" ++ [STok.anyStar] ++ slits "|&\x7d:"]

/-- `AgentMode._is_safe_command` (app_enhanced_v3_1.py lines 592-609). -/
def isSafeCommand (command : String) : Bool :=
  !(dangerousPatterns.any (fun p => sSearch p (pyLower command.data)))

/-- The dictionary returned by `AgentMode.execute_command`
(app_enhanced_v3_1.py lines 548-590).  `return_code` is an `Option`
because the timeout, exception and blocked branches return dictionaries
without the `'return_code'` key. -/
structure ExecResult where
  success : Bool
  output : String
  error : String
  return_code : Option Int
  interpretation : String
deriving DecidableEq

/-- `AgentMode.execute_command` with instrumentation: besides the result it
returns the list of commands actually handed to `subprocess.run` and the
list of commands passed to `_is_safe_command`. -/
def executeCommand (run : String → RunOutcome) (command : String) :
    ExecResult × List String × List String :=
  if !isSafeCommand command then
    ({ success := false, output := "", error := "Command blocked for security reasons",
       return_code := none, interpretation := "" }, [], [command])
  else
    match run command with
    | RunOutcome.completed out err code =>
      ({ success := code = 0, output := out, error := err,
         return_code := some code, interpretation := "Executed: " ++ command },
       [command], [command])
    | RunOutcome.timedOut =>
      ({ success := false, output := "", error := "Command timeout (30s limit)",
         return_code := none, interpretation := "Timeout: " ++ command },
       [command], [command])
    | RunOutcome.failed msg =>
      ({ success := false, output := "", error := msg,
         return_code := none, interpretation := "Error: " ++ command },
       [command], [command])

/-- The canned response of `handle_agent_session` when no command was
interpreted (app_enhanced_v3_1.py lines 765-776), transcribed verbatim. -/
def helpText (message : String) : String :=
  "I understand you want to: \"" ++ message ++ "\"\n\n" ++
  "I can help you with commands like:\n" ++
  "• **\"What is the Python version?\"** → `python --version`\n" ++
  "• **\"List files\"** → `ls -la`  \n" ++
  "• **\"Show current directory\"** → `pwd`\n" ++
  "• **\"Check disk space\"** → `df -h`\n" ++
  "• **\"Install pip package requests\"** → `pip install requests`\n\n" ++
  "You can also use direct commands: `/cmd python --version`\n\n" ++
  "What would you like me to help you with?"

/-- Everything observable about one `handle_agent_session` turn: the
emitted `message_response` payload fields the claims talk about, the raw
executor result if a command ran, and the instrumentation traces.
`ollamaCalls` records prompts sent to the Ollama inference service
(`send_to_ollama`); the agent handler of v3.1 never calls it. -/
structure SessionOutcome where
  response : String
  isCommandResult : Bool
  commandSuccess : Option Bool
  execResult : Option ExecResult
  executed : List String
  filterChecked : List String
  ollamaCalls : List String
deriving DecidableEq

/-- `handle_agent_session` (app_enhanced_v3_1.py lines 734-791),
parameterised by the subprocess oracle.  A command is run only when
`interpret_command` produced a truthy (non-`None`, nonempty) command
string; otherwise the canned help text is emitted with
`is_command_result: False` and no inference call is made. -/
def handleAgentSession (run : String → RunOutcome) (message : String) : SessionOutcome :=
  match interpretCommand message with
  | some (command, interpretation) =>
    if command ≠ "" then
      let result := (executeCommand run command).1
      let executed := (executeCommand run command).2.1
      let checked := (executeCommand run command).2.2
      let response :=
        "**Interpretation**: " ++ interpretation ++ "\n\n" ++
        "**Command**: `" ++ command ++ "`\n\n" ++
        (if result.success then
          "**Output**:\n```\n" ++ result.output ++ "\n```" ++
            (if result.error ≠ "" then
              "\n\n**Warnings**:\n```\n" ++ result.error ++ "\n```"
            else "")
        else
          "**Error**:\n```\n" ++ result.error ++ "\n```")
      { response := response, isCommandResult := true,
        commandSuccess := some result.success, execResult := some result,
        executed := executed, filterChecked := checked, ollamaCalls := [] }
    else
      { response := helpText message, isCommandResult := false,
        commandSuccess := none, execResult := none,
        executed := [], filterChecked := [], ollamaCalls := [] }
  | none =>
    { response := helpText message, isCommandResult := false,
      commandSuccess := none, execResult := none,
      executed := [], filterChecked := [], ollamaCalls := [] }

end V31

namespace V32

open Omega

/-- The dictionary returned by `AgentCommandInterpreter.execute_command`
(app_enhanced_v3_2.py lines 711-747).  All branches populate all keys. -/
structure ExecResult where
  command : String
  stdout : String
  stderr : String
  returncode : Int
  success : Bool
deriving DecidableEq

/-- `AgentCommandInterpreter.execute_command` with instrumentation: the
second component lists the commands handed to `subprocess.run`, the third
lists commands passed to a safety filter — the v3.2 module has no
`_is_safe_command` and never consults one, so that trace is always empty. -/
def executeCommand (run : String → RunOutcome) (command : String) :
    ExecResult × List String × List String :=
  match run command with
  | RunOutcome.completed out err code =>
    ({ command := command, stdout := out, stderr := err,
       returncode := code, success := code = 0 }, [command], [])
  | RunOutcome.timedOut =>
    ({ command := command, stdout := "",
       stderr := "Command timed out after 30 seconds",
       returncode := -1, success := false }, [command], [])
  | RunOutcome.failed msg =>
    ({ command := command, stdout := "",
       stderr := "Error executing command: " ++ msg,
       returncode := -1, success := false }, [command], [])

/-- The events emitted by `handle_agent_command`. -/
inductive AgentEvent where
  | agentError (message : String)
  | agentStatus (message : String)
  | agentResponse (command output : String) (success : Bool) (returncode : Int)
deriving DecidableEq

/-- The no-match help message of `handle_agent_command`
(app_enhanced_v3_2.py lines 1108-1111): the first five rule descriptions. -/
def helpMessage (userInput : String) : String :=
  "I didn't understand '" ++ userInput ++ "'. Try commands like:\n" ++
  String.intercalate "\n"
    ((COMMAND_PATTERNS.take 5).map (fun r => "• " ++ r.description))

/-- `handle_agent_command` (app_enhanced_v3_2.py lines 1076-1122) with the
same instrumentation as the executor: emitted events, executed commands,
and commands passed to a safety filter (always none — the handler calls
`execute_command` directly on the interpreted command). -/
def handleAgentCommand (run : String → RunOutcome) (message : String) :
    List AgentEvent × List String × List String :=
  let userInput := String.mk (pyStrip message.data)
  if userInput = "" then
    ([AgentEvent.agentError "Empty command received"], [], [])
  else
    match interpretCommand userInput with
    | some shellCommand =>
      let (result, executed, checked) := executeCommand run shellCommand
      let output :=
        (if result.stdout ≠ "" then "Output:\n" ++ result.stdout ++ "\n" else "") ++
        (if result.stderr ≠ "" then "Errors:\n" ++ result.stderr ++ "\n" else "")
      ([AgentEvent.agentStatus ("Executing: " ++ shellCommand),
        AgentEvent.agentResponse shellCommand output result.success result.returncode],
       executed, checked)
    | none =>
      ([AgentEvent.agentResponse userInput (helpMessage userInput) false (-1)], [], [])

end V32

namespace Omega

/-! ## URL-recognition patterns and tunnel state

Every provider's `url_pattern` has the shape
`https://[\w-]+\.<domain>`: literal characters plus one greedy `[\w-]+`.
The matcher returns the matched substring, which is what
`url_match.group()` / `url_match.group(0)` yields in the source. -/

inductive UTok where
  | lit (c : Char)
  | wplus
  | wcont
deriving DecidableEq

/-- Literal tokens of a string (URL-pattern language). -/
def ulits (s : String) : List UTok :=
  s.data.map UTok.lit

/-- The character class `[\w-]`. -/
def isWordDash (c : Char) : Bool :=
  isWordChar c || c = '-'

/-- Fueled URL-pattern matcher at a fixed position, returning the matched
text.  `wcont` greedily extends a `[\w-]+` run, preferring the longer
continuation as `re` does. -/
def uMatchF : Nat → List UTok → List Char → Option (List Char)
  | 0, _, _ => none
  | _ + 1, [], _ => some []
  | f + 1, UTok.lit c :: p, s =>
    match s with
    | [] => none
    | x :: t => if x = c then (uMatchF f p t).map (fun m => x :: m) else none
  | f + 1, UTok.wplus :: p, s =>
    match s with
    | [] => none
    | x :: t =>
      if isWordDash x then (uMatchF f (UTok.wcont :: p) t).map (fun m => x :: m) else none
  | f + 1, UTok.wcont :: p, s =>
    (match s with
     | [] => none
     | x :: t =>
       if isWordDash x then (uMatchF f (UTok.wcont :: p) t).map (fun m => x :: m) else none)
    <|> uMatchF f p s

/-- Fueled leftmost search returning the matched text. -/
def uSearchF : Nat → List UTok → List Char → Option (List Char)
  | 0, _, _ => none
  | f + 1, p, s =>
    match uMatchF (s.length + p.length + 1) p s with
    | some m => some m
    | none =>
      match s with
      | [] => none
      | _ :: t => uSearchF f p t

/-- `re.search(p, s)` for a URL pattern, returning `group(0)`. -/
def uSearch (p : List UTok) (s : List Char) : Option (List Char) :=
  uSearchF (s.length + 1) p s

/-- A URL pattern `https://[\w-]+\.<rest>` with `rest` the literal domain
tail (including its leading dot). -/
def urlPat (tail : String) : List UTok :=
  ulits "https://" ++ [UTok.wplus] ++ ulits tail

/-- One `TUNNEL_PROVIDERS` entry. -/
structure ProviderCfg where
  name : String
  command : List String
  urlPattern : List UTok
  priority : Nat
  enabled : Bool
deriving DecidableEq

/-- `TUNNEL_PROVIDERS`, identical (up to insignificant whitespace) in all
three versions of the source. -/
def TUNNEL_PROVIDERS : List (String × ProviderCfg) := [
  ("cloudflare",
   { name := "Cloudflare Tunnel",
     command := ["cloudflared", "tunnel", "--url", "http://localhost:5000"],
     urlPattern := urlPat ".trycloudflare.com", priority := 1, enabled := true }),
  ("ngrok",
   { name := "ngrok",
     command := ["ngrok", "http", "5000"],
     urlPattern := urlPat ".ngrok-free.app", priority := 2, enabled := true }),
  ("localtunnel",
   { name := "LocalTunnel",
     command := ["lt", "--port", "5000"],
     urlPattern := urlPat ".loca.lt", priority := 3, enabled := true }),
  ("serveo",
   { name := "Serveo",
     command := ["ssh", "-R", "80:localhost:5000", "serveo.net"],
     urlPattern := urlPat ".serveo.net", priority := 4, enabled := true })]

/-- Python-dict membership test on an association list. -/
def assocHas {α : Type} (m : List (String × α)) (k : String) : Bool :=
  m.any (fun e => e.1 == k)

/-- Python-dict lookup on an association list. -/
def assocGet {α : Type} (m : List (String × α)) (k : String) : Option α :=
  (m.find? (fun e => e.1 == k)).map (fun e => e.2)

/-- Python-dict assignment `m[k] = v`: replace in place if the key exists,
append otherwise. -/
def assocSet {α : Type} (m : List (String × α)) (k : String) (v : α) : List (String × α) :=
  if assocHas m k then m.map (fun e => if e.1 == k then (k, v) else e)
  else m ++ [(k, v)]

/-- The mutable module state shared by the tunnel managers:
`TUNNEL_PROCESSES` (provider → process handle) and `ACTIVE_TUNNELS`
(provider → discovered URL).  `nextHandle` supplies fresh process handles. -/
structure TunnelState where
  processes : List (String × Nat)
  active : List (String × String)
  nextHandle : Nat
deriving DecidableEq

/-- Observable events of the tunnel managers. -/
inductive TEvent where
  | launched (provider : String) (handle : Nat)
  | alreadyRunning (provider : String)
  | unknownProvider (provider : String)
  | launchFailed (provider : String)
  | urlFound (provider url : String)
deriving DecidableEq

end Omega

namespace V31

open Omega

/-- One line of `TunnelManager._monitor_tunnel`'s read loop
(app_enhanced_v3_1.py lines 477-501): a line matching the provider's URL
pattern overwrites the stored URL, any other line leaves it unchanged. -/
def monitorStep (pat : List UTok) (st : Option String) (line : String) : Option String :=
  match uSearch pat line.data with
  | some m => some (String.mk m)
  | none => st

/-- The URL held in `ACTIVE_TUNNELS[provider]` after `_monitor_tunnel` has
consumed the given output lines (the loop runs until end of stream and
never breaks out after a match). -/
def monitorTunnel (pat : List UTok) (lines : List String) : Option String :=
  lines.foldl (monitorStep pat) none

/-- `TunnelManager.start_tunnel` of app_enhanced_v3_1.py (lines 444-475),
identical in structure to app_enhanced_v3.py lines 381-414: a provider
already present in `TUNNEL_PROCESSES` is left untouched with an
"already running" notice; otherwise the process is launched (when the
`Popen` oracle succeeds) and registered. -/
def startTunnel (st : TunnelState) (provider : String) (launchOk : Bool) :
    TunnelState × List TEvent :=
  if assocHas st.processes provider then
    (st, [TEvent.alreadyRunning provider])
  else
    match assocGet TUNNEL_PROVIDERS provider with
    | none => (st, [TEvent.unknownProvider provider])
    | some _ =>
      if launchOk then
        ({ st with processes := assocSet st.processes provider st.nextHandle,
                   nextHandle := st.nextHandle + 1 },
         [TEvent.launched provider st.nextHandle])
      else (st, [TEvent.launchFailed provider])

/-- `TunnelManager.get_active_tunnels` of app_enhanced_v3_1.py (lines
514-517): a plain copy of the `ACTIVE_TUNNELS` dictionary. -/
def getActiveTunnels (active : List (String × String)) : List (String × String) :=
  active

end V31

namespace V32

open Omega

/-- The URL-scraping loop inside `TunnelManager.start_tunnel`
(app_enhanced_v3_2.py lines 579-589): skip falsy (whitespace-only) lines,
return the URL of the first line matching the provider's pattern, and stop
reading after it. -/
def scanForUrl (pat : List UTok) : List String → Option String
  | [] => none
  | l :: ls =>
    match (if (pyStrip l.data).isEmpty then none else uSearch pat l.data) with
    | some m => some (String.mk m)
    | none => scanForUrl pat ls

/-- `TunnelManager.start_tunnel` (app_enhanced_v3_2.py lines 556-594):
unknown providers are ignored; otherwise a process is launched and
registered unconditionally — there is no already-running guard — and the
output is scanned for the first URL match, which is stored in
`ACTIVE_TUNNELS`. -/
def startTunnel (st : TunnelState) (provider : String) (launchOk : Bool)
    (outputLines : List String) : TunnelState × Option String × List TEvent :=
  match assocGet TUNNEL_PROVIDERS provider with
  | none => (st, none, [])
  | some cfg =>
    if launchOk then
      let st1 := { st with processes := assocSet st.processes provider st.nextHandle,
                           nextHandle := st.nextHandle + 1 }
      match scanForUrl cfg.urlPattern outputLines with
      | some url =>
        ({ st1 with active := assocSet st1.active provider url }, some url,
         [TEvent.launched provider st.nextHandle, TEvent.urlFound provider url])
      | none => (st1, none, [TEvent.launched provider st.nextHandle])
    else (st, none, [TEvent.launchFailed provider])

/-- One entry of the list returned by `get_active_tunnels`. -/
structure TunnelInfo where
  provider : String
  name : String
  url : String
  priority : Nat
deriving DecidableEq

/-- Ordering used by `sorted(tunnels, key=lambda x: x['priority'])`. -/
def tunnelLE (a b : TunnelInfo) : Prop :=
  a.priority ≤ b.priority

instance : DecidableRel tunnelLE := fun a b => Nat.decLe a.priority b.priority

instance : IsTotal TunnelInfo tunnelLE := ⟨fun a b => Nat.le_total a.priority b.priority⟩

instance : IsTrans TunnelInfo tunnelLE := ⟨fun _ _ _ => Nat.le_trans⟩

/-- The environment consulted by `get_active_tunnels` beyond the
`ACTIVE_TUNNELS` dictionary: the content of `/tmp/serveo.log` (`none` when
the file does not exist), whether port 5000 of the RunPod IP accepts a
connection, that IP, and whether `pgrep -f localhost.run` succeeds. -/
structure Env where
  serveoLog : Option String
  directPortOpen : Bool
  runpodIp : String
  localhostRunActive : Bool

/-- Split on newline characters (Python `content.split('\n')`). -/
def splitNlAux : List Char → List Char → List (List Char)
  | [], acc => [acc.reverse]
  | c :: t, acc =>
    if c = '\n' then acc.reverse :: splitNlAux t [] else splitNlAux t (c :: acc)

/-- Python `content.split('\n')`. -/
def splitNl (s : List Char) : List (List Char) :=
  splitNlAux s []

/-- The serveo URL pattern used inline in `get_active_tunnels`. -/
def serveoPat : List UTok :=
  urlPat ".serveo.net"

/-- The line scan of the serveo-log branch (app_enhanced_v3_2.py lines
634-650): the first line containing both `https://` and `serveo.net` whose
regex search succeeds yields the URL and stops the scan; other lines are
skipped. -/
def serveoFindUrl : List (List Char) → Option String
  | [] => none
  | l :: ls =>
    if containsSub ("https://".data) l && containsSub ("serveo.net".data) l then
      match uSearch serveoPat l with
      | some m => some (String.mk m)
      | none => serveoFindUrl ls
    else serveoFindUrl ls

/-- The `ACTIVE_TUNNELS`-derived part of the result list: providers from
the dictionary that are also configured, with name and priority from
`TUNNEL_PROVIDERS`. -/
def baseEntries (active : List (String × String)) : List TunnelInfo :=
  active.filterMap (fun pu =>
    (assocGet TUNNEL_PROVIDERS pu.1).map (fun cfg =>
      { provider := pu.1, name := cfg.name, url := pu.2, priority := cfg.priority }))

/-- `TunnelManager.get_active_tunnels` (app_enhanced_v3_2.py lines
614-692): the `ACTIVE_TUNNELS` entries, possibly extended by a serveo URL
scraped from `/tmp/serveo.log` (priority 1), a direct-IP entry when port
5000 is reachable (priority 5), and a `localhost_run` marker entry when a
localhost.run process is found (priority 2); the combined list is returned
sorted by ascending priority (Python's `sorted` is stable, modelled by a
stable insertion sort). -/
def getActiveTunnels (active : List (String × String)) (env : Env) : List TunnelInfo :=
  let base := baseEntries active
  let t1 :=
    match env.serveoLog with
    | none => base
    | some content =>
      if containsSub ("serveo.net".data) content.data then
        match serveoFindUrl (splitNl content.data) with
        | some u =>
          if base.any (fun t => t.url == u) then base
          else base ++ [{ provider := "serveo", name := "Serveo.net (Active)",
                          url := u, priority := 1 }]
        | none => base
      else base
  let t2 :=
    if env.directPortOpen then
      let du := "http://" ++ env.runpodIp ++ ":5000"
      if t1.any (fun t => t.url == du) then t1
      else t1 ++ [{ provider := "direct", name := "Direct RunPod Access",
                    url := du, priority := 5 }]
    else t1
  let t3 :=
    if env.localhostRunActive then
      t2 ++ [{ provider := "localhost_run", name := "LocalHost.run (Active)",
               url := "Localhost.run tunnel active - check logs", priority := 2 }]
    else t2
  List.insertionSort tunnelLE t3

end V32


namespace Omega

/-! ## Shared oracles and rule-matching helpers -/

/-- A subprocess oracle under which every command exceeds the 30-second
budget and raises `subprocess.TimeoutExpired`. -/
def oracleTimeout : String → RunOutcome := fun _ => RunOutcome.timedOut

end Omega

namespace V31

open Omega

/-- Whether any pattern of the rule matches the normalised message. -/
def matchesRule (r : CommandRule) (msg : List Char) : Bool :=
  r.patterns.any (fun p => reSearch p msg)

/-- The fixed dictionary returned by `AgentMode.execute_command` when the
safety filter rejects the command (app_enhanced_v3_1.py lines 553-558). -/
def blockedResult : ExecResult :=
  { success := false, output := "", error := "Command blocked for security reasons",
    return_code := none, interpretation := "" }

theorem tryPatterns_eq_none (r : CommandRule) (msg : List Char) :
    ∀ ps : List (List Tok), (∀ p ∈ ps, reSearch p msg = false) →
      tryPatterns r msg ps = none := by
  intro ps
  induction ps with
  | nil => intro _; rfl
  | cons p ps ih =>
    intro h
    have hp : reSearch p msg = false := h p (List.mem_cons_self p ps)
    have hcap : reSearchCap p msg = none := by
      rcases hc : reSearchCap p msg with _ | g
      · rfl
      · exfalso
        rw [reSearch, hc] at hp
        exact Bool.noConfusion hp
    rw [tryPatterns, hcap]
    exact ih (fun q hq => h q (List.mem_cons_of_mem p hq))

theorem tryRule_eq_none (r : CommandRule) (msg : List Char)
    (h : matchesRule r msg = false) : tryRule r msg = none := by
  apply tryPatterns_eq_none
  intro p hp
  rw [matchesRule, List.any_eq_false] at h
  have hnp := h p hp
  rcases hr : reSearch p msg with _ | _
  · rfl
  · exact absurd hr hnp

theorem tryPatterns_skip (r : CommandRule) (msg : List Char)
    (ps1 : List (List Tok)) (p : List Tok) (ps2 : List (List Tok))
    (g : Option (List Char))
    (h1 : ∀ p' ∈ ps1, reSearch p' msg = false)
    (h2 : reSearchCap p msg = some g) :
    tryPatterns r msg (ps1 ++ p :: ps2) = some (substGroups r.command g) := by
  induction ps1 with
  | nil =>
    rw [List.nil_append, tryPatterns, h2]
  | cons q qs ih =>
    have hq : reSearch q msg = false := h1 q (List.mem_cons_self q qs)
    have hcap : reSearchCap q msg = none := by
      rcases hc : reSearchCap q msg with _ | g'
      · rfl
      · exfalso
        rw [reSearch, hc] at hq
        exact Bool.noConfusion hq
    rw [List.cons_append, tryPatterns, hcap]
    exact ih (fun q' hq' => h1 q' (List.mem_cons_of_mem q hq'))

theorem findInterp_skip (msg : List Char) (rs1 : List CommandRule)
    (r : CommandRule) (rs2 : List CommandRule) (c : String)
    (h1 : ∀ r' ∈ rs1, matchesRule r' msg = false)
    (h2 : tryRule r msg = some c) :
    findInterp msg (rs1 ++ r :: rs2) = some (c, r.description) := by
  induction rs1 with
  | nil =>
    rw [List.nil_append, findInterp, h2]
  | cons r' rs ih =>
    have hr' : tryRule r' msg = none :=
      tryRule_eq_none r' msg (h1 r' (List.mem_cons_self r' rs))
    rw [List.cons_append, findInterp, hr']
    exact ih (fun q hq => h1 q (List.mem_cons_of_mem r' hq))

end V31

open Omega

/-- Claim C3: for every user text on which the patterns of two or more
command rules match, `interpret_command` returns the command and
description of the rule that appears earlier in the rule list — rules are
tried in list order, patterns within a rule in their listed order, and the
first pattern match wins.  Stated by decomposing the rule list at the
earliest matching rule `r` (everything in `rs1` fails) and `r`'s pattern
list at the earliest matching pattern `p` (everything in `ps1` fails). -/
theorem c3_rule_order_determinism (t : String) (rs1 rs2 : List CommandRule)
    (r : CommandRule) (ps1 ps2 : List (List Tok)) (p : List Tok)
    (g : Option (List Char))
    (hdir : V31.isDirect (pyNorm t.data) = false)
    (hrules : V31.COMMAND_PATTERNS = rs1 ++ r :: rs2)
    (hskip : ∀ r' ∈ rs1, V31.matchesRule r' (pyNorm t.data) = false)
    (hpats : r.patterns = ps1 ++ p :: ps2)
    (hpskip : ∀ p' ∈ ps1, reSearch p' (pyNorm t.data) = false)
    (hcap : reSearchCap p (pyNorm t.data) = some g) :
    V31.interpretCommand t =
      some (V31.substGroups r.command g,
            "Interpreted '" ++ t ++ "' as: " ++ r.description) := by
  have htry : V31.tryRule r (pyNorm t.data) = some (V31.substGroups r.command g) := by
    rw [V31.tryRule, hpats]
    exact V31.tryPatterns_skip r _ ps1 p ps2 g hpskip hcap
  have hfind : V31.findInterp (pyNorm t.data) V31.COMMAND_PATTERNS =
      some (V31.substGroups r.command g, r.description) := by
    rw [hrules]
    exact V31.findInterp_skip _ rs1 r rs2 _ hskip htry
  unfold V31.interpretCommand
  simp only [hdir, hfind, Bool.false_eq_true, if_false]

/-- Witness for C3 at the ambiguous text "ls and df": both the file-listing
rule (list index 1, via its substring pattern `ls`) and the disk-space rule
(list index 3, via `df`) match, and the earlier rule wins with its command
`ls -la` and its description. -/
theorem c3_rule_order_determinism_witness :
    V31.matchesRule (V31.COMMAND_PATTERNS.get ⟨1, by decide⟩) (pyNorm ("ls and df").data) = true ∧
    V31.matchesRule (V31.COMMAND_PATTERNS.get ⟨3, by decide⟩) (pyNorm ("ls and df").data) = true ∧
    V31.interpretCommand "ls and df" =
      some ("ls -la", "Interpreted 'ls and df' as: List files in current directory") := by
  refine ⟨by decide, by decide, ?_⟩
  have h := c3_rule_order_determinism "ls and df"
      (V31.COMMAND_PATTERNS.take 1) (V31.COMMAND_PATTERNS.drop 2)
      (V31.COMMAND_PATTERNS.get ⟨1, by decide⟩)
      ((V31.COMMAND_PATTERNS.get ⟨1, by decide⟩).patterns.take 3) []
      (lits "ls") none
      (by decide) (by decide) (by decide) (by decide) (by decide) (by decide)
  rw [h]
  decide

/-- Claim C4: for every user text whose normalised form matches a command
rule's pattern with a captured group, `interpret_command` returns the
rule's command template with the positional placeholder replaced by the
captured group stripped of surrounding whitespace; an empty-after-strip
capture is substituted as the empty string rather than raising an error.
(Every capture pattern in the source has exactly one group, so the only
placeholder is the string between braces numbered 1.) -/
theorem c4_capture_substitution (t : String) (rs1 rs2 : List CommandRule)
    (r : CommandRule) (ps1 ps2 : List (List Tok)) (p : List Tok)
    (gc : List Char)
    (hdir : V31.isDirect (pyNorm t.data) = false)
    (hrules : V31.COMMAND_PATTERNS = rs1 ++ r :: rs2)
    (hskip : ∀ r' ∈ rs1, V31.matchesRule r' (pyNorm t.data) = false)
    (hpats : r.patterns = ps1 ++ p :: ps2)
    (hpskip : ∀ p' ∈ ps1, reSearch p' (pyNorm t.data) = false)
    (hcap : reSearchCap p (pyNorm t.data) = some (some gc)) :
    V31.interpretCommand t =
      some (String.mk (replaceAll r.command.data ("{1}".data) (pyStrip gc)),
            "Interpreted '" ++ t ++ "' as: " ++ r.description) := by
  have htry : V31.tryRule r (pyNorm t.data) =
      some (V31.substGroups r.command (some gc)) := by
    rw [V31.tryRule, hpats]
    exact V31.tryPatterns_skip r _ ps1 p ps2 (some gc) hpskip hcap
  have hfind : V31.findInterp (pyNorm t.data) V31.COMMAND_PATTERNS =
      some (V31.substGroups r.command (some gc), r.description) := by
    rw [hrules]
    exact V31.findInterp_skip _ rs1 r rs2 _ hskip htry
  unfold V31.interpretCommand
  simp only [hdir, hfind, Bool.false_eq_true, if_false]
  rfl

/-- Witness for C4 at the text "mkdir x \ny": the directory rule's pattern
`mkdir.*(.+)` captures the single space before the newline (greedy `.*`
backtracks one character, and `.`/`.+` cannot cross the newline), the
capture strips to the empty string, and the command is the template with
the placeholder replaced by the empty string — no error. -/
theorem c4_capture_substitution_witness :
    reSearchCap (lits "mkdir" ++ [Tok.ds, Tok.grp]) (pyNorm ("mkdir x \ny").data) =
      some (some [' ']) ∧
    pyStrip [' '] = [] ∧
    V31.interpretCommand "mkdir x \ny" =
      some ("mkdir -p ", "Interpreted 'mkdir x \ny' as: Create directory") := by
  refine ⟨by decide, by decide, ?_⟩
  have h := c4_capture_substitution "mkdir x \ny"
      (V31.COMMAND_PATTERNS.take 9) (V31.COMMAND_PATTERNS.drop 10)
      (V31.COMMAND_PATTERNS.get ⟨9, by decide⟩)
      ((V31.COMMAND_PATTERNS.get ⟨9, by decide⟩).patterns.take 1) []
      (lits "mkdir" ++ [Tok.ds, Tok.grp]) [' ']
      (by decide) (by decide) (by decide) (by decide) (by decide) (by decide)
  rw [h]
  decide

/-- Claim C10: because the rule patterns are unanchored regular expressions
searched inside the normalised text, a text that merely contains the letter
pair "ls" inside an unrelated word — such as "false" or "also" — and
matches no earlier rule is interpreted as the file-listing command
`ls -la` instead of producing no match. -/
theorem c10_substring_false_positive :
    V31.interpretCommand "false" =
      some ("ls -la", "Interpreted 'false' as: List files in current directory") ∧
    V31.interpretCommand "also" =
      some ("ls -la", "Interpreted 'also' as: List files in current directory") := by
  decide

/-- Claim C2: the fixed denylist rejects recursive root deletion,
shutdown/reboot/halt, filesystem formatting and fork-bomb idioms in both
versions of `_is_safe_command`, but the raw block-device write
`dd of=/dev/sda bs=1M` — the claim's own example — is accepted by the v3
filter: its sixth pattern reads `\bddof=/dev/` without the `\s+`, so it can
never match the spaced `dd of=...` form its inline comment documents.  The
v3.1 filter fixes the pattern to `\bdd\s+of=/dev/` and rejects the same
command. -/
theorem c2_denylist_dd_gap :
    V3.isSafeCommand "dd of=/dev/sda bs=1M" = true ∧
    V31.isSafeCommand "dd of=/dev/sda bs=1M" = false ∧
    V3.isSafeCommand "rm -rf /" = false ∧
    V31.isSafeCommand "rm -rf /" = false ∧
    V3.isSafeCommand "sudo shutdown -h now" = false ∧
    V31.isSafeCommand "sudo shutdown -h now" = false ∧
    V31.isSafeCommand "reboot" = false ∧
    V31.isSafeCommand "halt" = false ∧
    V31.isSafeCommand "mkfs.ext4 /dev/sda1" = false ∧
    V31.isSafeCommand ":()\x7b :|&\x7d:" = false := by
  decide

/-- Claim C5 (amended): under the 30-second timeout the v3.2
`execute_command` returns success false, empty stdout, the timeout message
and the sentinel returncode -1 for every command, and a normally completed
process with natural exit status `n` yields returncode `n`, which is never
the sentinel; the v3.1 `execute_command` on timeout returns success false,
empty stdout and its timeout message, but its result dictionary carries no
exit-status key at all (modelled as `return_code = none`). -/
theorem c5_timeout_result (c : String) :
    V32.executeCommand oracleTimeout c =
      ({ command := c, stdout := "", stderr := "Command timed out after 30 seconds",
         returncode := -1, success := false }, [c], []) ∧
    (∀ (out err : String) (n : Nat),
      (V32.executeCommand (fun _ => RunOutcome.completed out err (n : Int)) c).1.returncode
        = (n : Int) ∧ ((n : Int) : Int) ≠ (-1 : Int)) ∧
    (V31.isSafeCommand c = true →
      (V31.executeCommand oracleTimeout c).1 =
        { success := false, output := "", error := "Command timeout (30s limit)",
          return_code := none, interpretation := "Timeout: " ++ c }) := by
  refine ⟨rfl, fun out err n => ⟨rfl, ?_⟩, fun hsafe => ?_⟩
  · intro heq
    have : (0 : Int) ≤ (n : Int) := Int.ofNat_nonneg n
    rw [heq] at this
    exact absurd this (by decide)
  · unfold V31.executeCommand
    rw [hsafe]
    rfl

/-- Witness for C5 at the command "sleep 100", which passes the v3.1
safety filter, so the v3.1 timeout branch is exercised alongside the
universally quantified v3.2 parts. -/
theorem c5_timeout_result_witness :
    V31.isSafeCommand "sleep 100" = true ∧
    (V31.executeCommand oracleTimeout "sleep 100").1 =
      { success := false, output := "", error := "Command timeout (30s limit)",
        return_code := none, interpretation := "Timeout: sleep 100" } ∧
    V32.executeCommand oracleTimeout "sleep 100" =
      ({ command := "sleep 100", stdout := "",
         stderr := "Command timed out after 30 seconds",
         returncode := -1, success := false }, ["sleep 100"], []) := by
  refine ⟨by decide, (c5_timeout_result "sleep 100").2.2 (by decide),
          (c5_timeout_result "sleep 100").1⟩

/-- Counterexample to C5 as stated: on timeout the v3.1 `execute_command`
does not set any exit status — the returned dictionary has no
`'return_code'` key — so the timeout result's exit status is not the
sentinel -1. -/
theorem c5_v31_missing_sentinel :
    (V31.executeCommand oracleTimeout "sleep 100").1.return_code = none ∧
    (V31.executeCommand oracleTimeout "sleep 100").1.return_code ≠ some (-1) := by
  decide

theorem v31_executeCommand_spec (run : String → RunOutcome) (c : String) :
    (V31.executeCommand run c).2.2 = [c] ∧
    (V31.isSafeCommand c = true →
      (V31.executeCommand run c).2.1 = [c]) ∧
    (V31.isSafeCommand c = false →
      (V31.executeCommand run c).2.1 = [] ∧
      (V31.executeCommand run c).1 = V31.blockedResult) := by
  rcases hs : V31.isSafeCommand c with _ | _
  · refine ⟨?_, fun hcon => ?_, fun _ => ⟨?_, ?_⟩⟩
    · simp [V31.executeCommand, hs]
    · exact Bool.noConfusion hcon
    · simp [V31.executeCommand, hs]
    · simp [V31.executeCommand, hs, V31.blockedResult]
  · refine ⟨?_, fun _ => ?_, fun hcon => ?_⟩
    · rcases hr : run c with _ | _ | _ <;> simp [V31.executeCommand, hs, hr]
    · rcases hr : run c with _ | _ | _ <;> simp [V31.executeCommand, hs, hr]
    · exact Bool.noConfusion hcon

/-- Claim C1 (amended, v3.1 agent path): for every user message and every
subprocess behaviour, any command the agent session handler actually runs
was first passed to `_is_safe_command` and found safe, and whenever the
interpreted command is unsafe the handler produces the fixed blocked
result — error "Command blocked for security reasons", no execution. -/
theorem c1_filter_gates_execution (run : String → RunOutcome) (msg : String) :
    (∀ x ∈ (V31.handleAgentSession run msg).executed,
        x ∈ (V31.handleAgentSession run msg).filterChecked ∧
        V31.isSafeCommand x = true) ∧
    (∀ cmd interp, V31.interpretCommand msg = some (cmd, interp) → cmd ≠ "" →
        V31.isSafeCommand cmd = false →
        (V31.handleAgentSession run msg).executed = [] ∧
        (V31.handleAgentSession run msg).execResult = some V31.blockedResult) := by
  rcases hI : V31.interpretCommand msg with _ | ⟨cmd, interp⟩
  · constructor
    · intro x hx
      simp [V31.handleAgentSession, hI] at hx
    · intro cmd' interp' h
      exact Option.noConfusion h
  · by_cases hc : cmd = ""
    · subst hc
      constructor
      · intro x hx
        simp [V31.handleAgentSession, hI] at hx
      · intro cmd' interp' h hne _
        injection h with h2
        exact absurd (congrArg Prod.fst h2).symm hne
    · have hexec : (V31.handleAgentSession run msg).executed =
          (V31.executeCommand run cmd).2.1 := by
        simp [V31.handleAgentSession, hI, hc]
      have hchk : (V31.handleAgentSession run msg).filterChecked =
          (V31.executeCommand run cmd).2.2 := by
        simp [V31.handleAgentSession, hI, hc]
      have hres : (V31.handleAgentSession run msg).execResult =
          some (V31.executeCommand run cmd).1 := by
        simp [V31.handleAgentSession, hI, hc]
      obtain ⟨hspec1, hspec2, hspec3⟩ := v31_executeCommand_spec run cmd
      constructor
      · intro x hx
        rw [hexec] at hx
        rcases hsf : V31.isSafeCommand cmd with _ | _
        · rw [(hspec3 hsf).1] at hx
          exact absurd hx (List.not_mem_nil x)
        · rw [hspec2 hsf] at hx
          have hxc : x = cmd := List.mem_singleton.mp hx
          subst hxc
          refine ⟨?_, hsf⟩
          rw [hchk, hspec1]
          exact List.mem_singleton.mpr rfl
      · intro cmd' interp' h hne hunsafe
        injection h with h2
        have hcc : cmd' = cmd := (congrArg Prod.fst h2).symm
        subst hcc
        rw [hexec, hres]
        exact ⟨(hspec3 hunsafe).1, by rw [(hspec3 hunsafe).2]⟩

/-- Witness for C1 at the direct command "/cmd rm -rf /": the interpreter
returns the literal command "rm -rf /", the filter rejects it, and the
handler produces the blocked result with no execution. -/
theorem c1_filter_gates_execution_witness :
    V31.interpretCommand "/cmd rm -rf /" = some ("rm -rf /", "Direct command: rm -rf /") ∧
    V31.isSafeCommand "rm -rf /" = false ∧
    (V31.handleAgentSession oracleTimeout "/cmd rm -rf /").executed = [] ∧
    (V31.handleAgentSession oracleTimeout "/cmd rm -rf /").execResult =
      some V31.blockedResult := by
  refine ⟨by decide, by decide, ?_⟩
  have h := (c1_filter_gates_execution oracleTimeout "/cmd rm -rf /").2
      "rm -rf /" "Direct command: rm -rf /" (by decide) (by decide) (by decide)
  exact h

/-- Claim C6 (amended, v3.2 scan): in the v3.2 `start_tunnel` output scan
the URL extracted from the first matching line is returned, and the lines
after it are never inspected — whatever they contain, the result is the
first match.  (The per-provider state holds at most one URL by
construction: `ACTIVE_TUNNELS` maps a provider to a single string.) -/
theorem c6_first_url_retained (pat : List UTok) (pre post : List String) (l u : String)
    (hpre : ∀ l' ∈ pre,
      (if (pyStrip l'.data).isEmpty then none else uSearch pat l'.data) = none)
    (hl : (pyStrip l.data).isEmpty = false)
    (hm : uSearch pat l.data = some u.data) :
    V32.scanForUrl pat (pre ++ l :: post) = some u := by
  induction pre with
  | nil =>
    rw [List.nil_append]
    unfold V32.scanForUrl
    rw [hl]
    simp only [Bool.false_eq_true, if_false, hm]
  | cons l' ls ih =>
    rw [List.cons_append]
    unfold V32.scanForUrl
    rw [hpre l' (List.mem_cons_self l' ls)]
    exact ih (fun x hx => hpre x (List.mem_cons_of_mem l' hx))

/-- Witness for C6: after one non-matching line, the first matching line's
URL is returned and a later line carrying a different matching URL is
ignored. -/
theorem c6_first_url_retained_witness :
    V32.scanForUrl (urlPat ".trycloudflare.com")
      (["starting tunnel"] ++ "https://abc.trycloudflare.com" ::
        ["https://xyz.trycloudflare.com"]) =
      some "https://abc.trycloudflare.com" := by
  exact c6_first_url_retained (urlPat ".trycloudflare.com")
    ["starting tunnel"] ["https://xyz.trycloudflare.com"]
    "https://abc.trycloudflare.com" "https://abc.trycloudflare.com"
    (by decide) (by decide) (by decide)

/-- Counterexample to C6 as stated: the v3.1 `_monitor_tunnel` loop never
stops after a match, so a second matching line overwrites the stored URL —
the last match is retained, not the first. -/
theorem c6_v31_last_match_overwrites :
    V31.monitorTunnel (urlPat ".trycloudflare.com")
      ["https://aaa.trycloudflare.com", "https://bbb.trycloudflare.com"] =
      some "https://bbb.trycloudflare.com" ∧
    V31.monitorTunnel (urlPat ".trycloudflare.com")
      ["https://aaa.trycloudflare.com", "https://bbb.trycloudflare.com"] ≠
      some "https://aaa.trycloudflare.com" := by
  decide

/-- Claim C7 (amended, v3/v3.1): `start_tunnel` is idempotent — when the
provider already has a registered process, the call leaves the whole
tunnel state unchanged and only logs an already-running notice, whatever
the launch oracle would do. -/
theorem c7_start_tunnel_idempotent (st : TunnelState) (provider : String)
    (launchOk : Bool) (h : assocHas st.processes provider = true) :
    V31.startTunnel st provider launchOk = (st, [TEvent.alreadyRunning provider]) := by
  unfold V31.startTunnel
  rw [h]
  rfl

/-- Witness for C7 with a state in which cloudflare is already running. -/
theorem c7_start_tunnel_idempotent_witness :
    assocHas ([("cloudflare", 3)] : List (String × Nat)) "cloudflare" = true ∧
    V31.startTunnel { processes := [("cloudflare", 3)], active := [], nextHandle := 4 }
        "cloudflare" true =
      ({ processes := [("cloudflare", 3)], active := [], nextHandle := 4 },
       [TEvent.alreadyRunning "cloudflare"]) := by
  refine ⟨by decide, c7_start_tunnel_idempotent _ _ _ (by decide)⟩

/-- Counterexample to C7 as stated: the v3.2 `start_tunnel` has no
already-running guard — called on a provider whose process is already
registered, it launches a fresh process (a `launched` event with the new
handle 4) and overwrites the stored handle instead of being a no-op. -/
theorem c7_v32_relaunches_running_provider :
    assocHas ([("cloudflare", 3)] : List (String × Nat)) "cloudflare" = true ∧
    (V32.startTunnel { processes := [("cloudflare", 3)], active := [], nextHandle := 4 }
        "cloudflare" true []).2.2 = [TEvent.launched "cloudflare" 4] ∧
    (V32.startTunnel { processes := [("cloudflare", 3)], active := [], nextHandle := 4 }
        "cloudflare" true []).1.processes = [("cloudflare", 4)] := by
  decide

/-- Claim C8 (amended): when the interpreter produces no command, the v3.1
agent session handler emits the canned help response tagged
`is_command_result: False` — it executes nothing, consults no filter, and
sends nothing to the inference service; by contrast the older v3
`handle_agent_mode` does delegate non-command input to the inference
service with the (search-enhanced) user text. -/
theorem c8_no_match_conversational_fallback (run : String → RunOutcome) (msg : String)
    (h : V31.interpretCommand msg = none) :
    V31.handleAgentSession run msg =
      { response := V31.helpText msg, isCommandResult := false, commandSuccess := none,
        execResult := none, executed := [], filterChecked := [], ollamaCalls := [] } ∧
    (∀ (ollama enhance : String → String),
      startsWith ("/cmd ".data) msg.data = false →
      startsWith ("/terminal ".data) msg.data = false →
      (V3.handleAgentMode run ollama enhance msg).ollamaCalls = [enhance msg] ∧
      (V3.handleAgentMode run ollama enhance msg).response = ollama (enhance msg)) := by
  constructor
  · simp [V31.handleAgentSession, h]
  · intro ollama enhance h1 h2
    constructor <;> simp [V3.handleAgentMode, h1, h2]

/-- Witness for C8 at the text "hello there", which matches no command
rule and no direct marker. -/
theorem c8_no_match_conversational_fallback_witness :
    V31.interpretCommand "hello there" = none ∧
    V31.handleAgentSession oracleTimeout "hello there" =
      { response := V31.helpText "hello there", isCommandResult := false,
        commandSuccess := none, execResult := none, executed := [],
        filterChecked := [], ollamaCalls := [] } := by
  exact ⟨by decide,
    (c8_no_match_conversational_fallback oracleTimeout "hello there" (by decide)).1⟩

set_option maxRecDepth 8192 in
/-- Counterexample to C8 as stated: on the no-match input "hello there" the
v3.1 agent handler calls the inference service zero times and returns the
canned help text — it does not delegate the raw user text to the external
inference collaborator. -/
theorem c8_v31_no_delegation :
    V31.interpretCommand "hello there" = none ∧
    (V31.handleAgentSession oracleTimeout "hello there").ollamaCalls = [] ∧
    (V31.handleAgentSession oracleTimeout "hello there").response =
      V31.helpText "hello there" ∧
    (V31.handleAgentSession oracleTimeout "hello there").isCommandResult = false := by
  decide

/-- Claim C9 (amended, v3.2): when the three environment side channels are
silent (no serveo log file, RunPod port closed, no localhost.run process),
`get_active_tunnels` returns exactly the `ACTIVE_TUNNELS` entries — each
with provider, url and the provider's configured priority — sorted in
ascending priority order; and the v3.1 `get_active_tunnels` is merely a
copy of the provider-to-URL dictionary, with neither priorities nor
ordering. -/
theorem c9_active_snapshot_sorted (active : List (String × String)) (env : V32.Env)
    (h1 : env.serveoLog = none) (h2 : env.directPortOpen = false)
    (h3 : env.localhostRunActive = false) :
    V32.getActiveTunnels active env =
      List.insertionSort V32.tunnelLE (V32.baseEntries active) ∧
    List.Sorted V32.tunnelLE (V32.getActiveTunnels active env) ∧
    (∀ x, x ∈ V32.getActiveTunnels active env ↔ x ∈ V32.baseEntries active) ∧
    V31.getActiveTunnels active = active := by
  have he : V32.getActiveTunnels active env =
      List.insertionSort V32.tunnelLE (V32.baseEntries active) := by
    unfold V32.getActiveTunnels
    rw [h1, h2, h3]
    rfl
  refine ⟨he, ?_, ?_, rfl⟩
  · rw [he]
    exact List.sorted_insertionSort V32.tunnelLE (V32.baseEntries active)
  · intro x
    rw [he]
    exact (List.perm_insertionSort V32.tunnelLE (V32.baseEntries active)).mem_iff

/-- Witness for C9: two discovered tunnels arriving in the order ngrok
(priority 2) then cloudflare (priority 1) are reported sorted ascending by
priority, cloudflare first. -/
theorem c9_active_snapshot_sorted_witness :
    List.Sorted V32.tunnelLE
      (V32.getActiveTunnels
        [("ngrok", "https://n.ngrok-free.app"), ("cloudflare", "https://c.trycloudflare.com")]
        { serveoLog := none, directPortOpen := false, runpodIp := "213.173.99.7",
          localhostRunActive := false }) ∧
    V32.getActiveTunnels
        [("ngrok", "https://n.ngrok-free.app"), ("cloudflare", "https://c.trycloudflare.com")]
        { serveoLog := none, directPortOpen := false, runpodIp := "213.173.99.7",
          localhostRunActive := false } =
      [{ provider := "cloudflare", name := "Cloudflare Tunnel",
         url := "https://c.trycloudflare.com", priority := 1 },
       { provider := "ngrok", name := "ngrok",
         url := "https://n.ngrok-free.app", priority := 2 }] := by
  refine ⟨(c9_active_snapshot_sorted
      [("ngrok", "https://n.ngrok-free.app"), ("cloudflare", "https://c.trycloudflare.com")]
      { serveoLog := none, directPortOpen := false, runpodIp := "213.173.99.7",
        localhostRunActive := false } rfl rfl rfl).2.1, by decide⟩

/-- Counterexample to C9 as stated: with an empty `ACTIVE_TUNNELS` — no
provider has a discovered URL — but a localhost.run process detected by
`pgrep`, `get_active_tunnels` returns a non-empty list containing a marker
entry whose url field is not a discovered URL at all, so the snapshot does
not contain exactly the url-found providers. -/
theorem c9_environment_extras_leak :
    V32.baseEntries [] = [] ∧
    V32.getActiveTunnels []
        { serveoLog := none, directPortOpen := false, runpodIp := "213.173.99.7",
          localhostRunActive := true } =
      [{ provider := "localhost_run", name := "LocalHost.run (Active)",
         url := "Localhost.run tunnel active - check logs", priority := 2 }] := by
  decide

/-- Counterexample to C1 as stated: on the v3.2 agent path the user
message "list files" leads to the execution of the interpreted command
"ls -la" while no safety filter is ever consulted — the executed-command
trace is non-empty and the filter-invocation trace is empty, because the
v3.2 module has no `_is_safe_command` and `handle_agent_command` passes
the interpreted command straight to `execute_command`. -/
theorem c1_v32_executes_without_filter :
    (V32.handleAgentCommand oracleTimeout "list files").2.1 = ["ls -la"] ∧
    (V32.handleAgentCommand oracleTimeout "list files").2.2 = [] := by
  decide
